import Mathlib

set_option maxHeartbeats 4000000
set_option maxRecDepth 200000

/-!
Verification development for the FIR extraction engine `parseFIR` of
`src/CaseSummaryView.js` (Legal-Summarizer).

Strings are modelled as `List Char` (`Str`).  JavaScript regular expressions
are modelled by a small abstract-syntax type `RE` together with a backtracking
matcher (`mat`) implementing the ECMAScript semantics for the constructs that
actually occur in the source: ordered alternation, greedy/lazy quantifiers on
character classes, optional groups, positive/negative lookahead, word
boundaries, anchors, case-insensitive matching and one or two numbered capture
groups.  Each regex literal of the source is transcribed token-for-token into
an `RE` value, and every function of the source (`pick`, `sliceBetween`,
`cleanPerson`, `parseFIR`, ...) is translated clause by clause.
-/

namespace LegalSum

abbrev Str := List Char

/-- The set of ECMAScript WhiteSpace plus LineTerminator code points: the
characters removed by `String.prototype.trim` and matched by the regex
class `\s`. -/
def isJsWS (c : Char) : Bool :=
  c == ' ' || c == '\t' || c == '\n' || c == '\r' ||
  c == Char.ofNat 11 || c == Char.ofNat 12 || c == Char.ofNat 160 ||
  c == Char.ofNat 65279 || c == Char.ofNat 5760 ||
  (Nat.ble 8192 c.toNat && Nat.ble c.toNat 8202) ||
  c == Char.ofNat 8232 || c == Char.ofNat 8233 ||
  c == Char.ofNat 8239 || c == Char.ofNat 8287 || c == Char.ofNat 12288

/-- JavaScript `String.prototype.trim`. -/
def jsTrim (s : Str) : Str :=
  ((s.dropWhile fun c => isJsWS c).reverse.dropWhile fun c => isJsWS c).reverse

/-- Word character for the regex assertion `\b`: `[A-Za-z0-9_]`. -/
def isWordC (c : Char) : Bool :=
  (Nat.ble 65 c.toNat && Nat.ble c.toNat 90) ||
  (Nat.ble 97 c.toNat && Nat.ble c.toNat 122) ||
  (Nat.ble 48 c.toNat && Nat.ble c.toNat 57) ||
  c == '_'

/-- ASCII lower-casing, the canonicalization relevant for the `/i` flag on the
ASCII-only patterns of the source. -/
def lowerOf (c : Char) : Char :=
  if Nat.ble 65 c.toNat && Nat.ble c.toNat 90 then Char.ofNat (c.toNat + 32) else c

def upperOf (c : Char) : Char :=
  if Nat.ble 97 c.toNat && Nat.ble c.toNat 122 then Char.ofNat (c.toNat - 32) else c

/-- Character comparison, case-insensitively when `ci` is set. -/
def ciEq (ci : Bool) (a b : Char) : Bool :=
  a == b || (ci && lowerOf a == lowerOf b)

/-- One item of a regex character class. -/
inductive CItem where
  | ch : Char → CItem
  | range : Char → Char → CItem
  | ws : CItem
  | digit : CItem

/-- A regex character class: a (possibly negated) union of items. -/
structure CharSet where
  neg : Bool
  items : List CItem

def inRangeB (lo hi c : Char) : Bool :=
  Nat.ble lo.toNat c.toNat && Nat.ble c.toNat hi.toNat

def itemHas (ci : Bool) (c : Char) : CItem → Bool
  | .ch d => ciEq ci d c
  | .range lo hi =>
      inRangeB lo hi c || (ci && (inRangeB lo hi (lowerOf c) || inRangeB lo hi (upperOf c)))
  | .ws => isJsWS c
  | .digit => Nat.ble 48 c.toNat && Nat.ble c.toNat 57

def csHas (ci : Bool) (s : CharSet) (c : Char) : Bool :=
  let b := s.items.any fun it => itemHas ci c it
  if s.neg then !b else b

/-- Abstract syntax of the regex fragment used by `parseFIR`.  Quantifiers
(`star`, `starL`, `plus`, `plusL`, `rep`) apply to character classes only,
which is all the source needs and keeps the matcher total. -/
inductive RE where
  | eps : RE
  | lit : Str → RE
  | cls : CharSet → RE
  | seq : RE → RE → RE
  | alt : RE → RE → RE
  | opt : RE → RE
  | star : CharSet → RE
  | starL : CharSet → RE
  | plus : CharSet → RE
  | plusL : CharSet → RE
  | rep : CharSet → Nat → Nat → RE
  | look : RE → RE
  | lookN : RE → RE
  | wb : RE
  | bos : RE
  | eos : RE
  | grp : Nat → RE → RE

/-- Capture list: entries `(groupNumber, startPos, endPos)`, newest first. -/
abbrev Caps := List (Nat × Nat × Nat)

/-- A successful match continuation result: end position and captures. -/
abbrev MRes := Nat × Caps

/-- Full matcher continuation. -/
abbrev Cont := Option Char → Str → Nat → Caps → Option MRes

/-- Class-quantifier continuation (captures are untouched inside a class). -/
abbrev ContNC := Option Char → Str → Nat → Option MRes

/-- Match a literal (sequence of characters) at the current point. -/
def litFrom (ci : Bool) : Str → Option Char → Str → Nat → Option (Option Char × Str × Nat)
  | [], prev, rest, pos => some (prev, rest, pos)
  | c :: cs, _, rest, pos =>
      match rest with
      | [] => none
      | d :: ds => if ciEq ci c d then litFrom ci cs (some d) ds (pos + 1) else none

/-- Greedy Kleene star over a character class (backtracking, longest first). -/
def starG (ci : Bool) (cs : CharSet) (k : ContNC) : Option Char → Str → Nat → Option MRes
  | prev, [], pos => k prev [] pos
  | prev, c :: rs, pos =>
      if csHas ci cs c then
        (starG ci cs k (some c) rs (pos + 1)).orElse fun _ => k prev (c :: rs) pos
      else k prev (c :: rs) pos

/-- Lazy Kleene star over a character class (shortest first). -/
def starLz (ci : Bool) (cs : CharSet) (k : ContNC) : Option Char → Str → Nat → Option MRes
  | prev, [], pos => k prev [] pos
  | prev, c :: rs, pos =>
      (k prev (c :: rs) pos).orElse fun _ =>
        if csHas ci cs c then starLz ci cs k (some c) rs (pos + 1) else none

/-- Exactly `n` further characters of the class. -/
def repExact (ci : Bool) (cs : CharSet) (k : ContNC) :
    Nat → Option Char → Str → Nat → Option MRes
  | 0, prev, rest, pos => k prev rest pos
  | n + 1, _, rest, pos =>
      match rest with
      | [] => none
      | c :: rs => if csHas ci cs c then repExact ci cs k n (some c) rs (pos + 1) else none

/-- Greedily up to `n` further characters of the class (longest first). -/
def repUpG (ci : Bool) (cs : CharSet) (k : ContNC) :
    Nat → Option Char → Str → Nat → Option MRes
  | 0, prev, rest, pos => k prev rest pos
  | n + 1, prev, rest, pos =>
      match rest with
      | [] => k prev rest pos
      | c :: rs =>
          if csHas ci cs c then
            (repUpG ci cs k n (some c) rs (pos + 1)).orElse fun _ => k prev (c :: rs) pos
          else k prev (c :: rs) pos

/-- The `\b` assertion at the current point. -/
def wordB (prev : Option Char) (rest : Str) : Bool :=
  let pw := match prev with | none => false | some c => isWordC c
  let nw := match rest with | [] => false | c :: _ => isWordC c
  pw != nw

/-- Backtracking matcher in continuation-passing style.  `mat ci re prev rest
pos cp k` attempts to match `re` at the current point (`prev` = preceding
character, `rest` = remaining input, `pos` = absolute position) and calls `k`
on every way of matching, in the ECMAScript priority order, until `k`
succeeds. -/
def mat (ci : Bool) : RE → Option Char → Str → Nat → Caps → Cont → Option MRes
  | .eps, prev, rest, pos, cp, k => k prev rest pos cp
  | .lit s, prev, rest, pos, cp, k =>
      match litFrom ci s prev rest pos with
      | some (p, r, q) => k p r q cp
      | none => none
  | .cls cs, _, rest, pos, cp, k =>
      match rest with
      | [] => none
      | c :: rs => if csHas ci cs c then k (some c) rs (pos + 1) cp else none
  | .seq a b, prev, rest, pos, cp, k =>
      mat ci a prev rest pos cp fun p r q c => mat ci b p r q c k
  | .alt a b, prev, rest, pos, cp, k =>
      (mat ci a prev rest pos cp k).orElse fun _ => mat ci b prev rest pos cp k
  | .opt a, prev, rest, pos, cp, k =>
      (mat ci a prev rest pos cp k).orElse fun _ => k prev rest pos cp
  | .star cs, prev, rest, pos, cp, k =>
      starG ci cs (fun p r q => k p r q cp) prev rest pos
  | .starL cs, prev, rest, pos, cp, k =>
      starLz ci cs (fun p r q => k p r q cp) prev rest pos
  | .plus cs, _, rest, pos, cp, k =>
      match rest with
      | [] => none
      | c :: rs =>
          if csHas ci cs c then starG ci cs (fun p r q => k p r q cp) (some c) rs (pos + 1)
          else none
  | .plusL cs, _, rest, pos, cp, k =>
      match rest with
      | [] => none
      | c :: rs =>
          if csHas ci cs c then starLz ci cs (fun p r q => k p r q cp) (some c) rs (pos + 1)
          else none
  | .rep cs lo hi, prev, rest, pos, cp, k =>
      repExact ci cs (fun p r q => repUpG ci cs (fun p2 r2 q2 => k p2 r2 q2 cp) (hi - lo) p r q)
        lo prev rest pos
  | .look a, prev, rest, pos, cp, k =>
      match mat ci a prev rest pos cp (fun _ _ q c => some (q, c)) with
      | some _ => k prev rest pos cp
      | none => none
  | .lookN a, prev, rest, pos, cp, k =>
      match mat ci a prev rest pos cp (fun _ _ q c => some (q, c)) with
      | some _ => none
      | none => k prev rest pos cp
  | .wb, prev, rest, pos, cp, k =>
      if wordB prev rest then k prev rest pos cp else none
  | .bos, prev, rest, pos, cp, k =>
      if pos = 0 then k prev rest pos cp else none
  | .eos, prev, rest, pos, cp, k =>
      match rest with
      | [] => k prev [] pos cp
      | _ => none
  | .grp n a, prev, rest, pos, cp, k =>
      mat ci a prev rest pos cp fun p r q c => k p r q ((n, pos, q) :: c)

/-- A match: start position, end position, captures. -/
abbrev Mtch := Nat × Nat × Caps

/-- Leftmost match search from the current point onwards. -/
def tryFrom (ci : Bool) (re : RE) : Option Char → Str → Nat → Option Mtch
  | prev, rest, pos =>
      match mat ci re prev rest pos [] (fun _ _ q c => some (q, c)) with
      | some (e, cp) => some (pos, e, cp)
      | none =>
          match rest with
          | [] => none
          | c :: rs => tryFrom ci re (some c) rs (pos + 1)

/-- JavaScript `string.match(re)` (no `g` flag): the leftmost match. -/
def rxMatch (ci : Bool) (re : RE) (s : Str) : Option Mtch :=
  tryFrom ci re none s 0

/-- JavaScript `string.search(re)`: index of the leftmost match. -/
def rxSearch (ci : Bool) (re : RE) (s : Str) : Option Nat :=
  (rxMatch ci re s).map fun m => m.1

/-- JavaScript `re.test(string)`. -/
def rxTest (ci : Bool) (re : RE) (s : Str) : Bool :=
  (rxMatch ci re s).isSome

def capLookup (cp : Caps) (n : Nat) : Option (Nat × Nat) :=
  match cp with
  | [] => none
  | (m, a, b) :: rest => if m = n then some (a, b) else capLookup rest n

/-- The text of capture group `n` of a match over `s`. -/
def grpStr (s : Str) (cp : Caps) (n : Nat) : Option Str :=
  (capLookup cp n).map fun ab => (s.drop ab.1).take (ab.2 - ab.1)

/-- `m[1]` for a match `m` of a regex over `s`. -/
def grp1At (s : Str) (m : Mtch) : Option Str := grpStr s m.2.2 1

/-- `m[0]` (the whole matched substring) for a match `m` over `s`. -/
def grp0At (s : Str) (m : Mtch) : Str := (s.drop m.1).take (m.2.1 - m.1)

/-- JavaScript `matchAll` / global-flag scanning: all matches, each search
resuming at the end of the previous match (advancing one character after an
empty match). -/
def matchAllAux (ci : Bool) (re : RE) : Nat → Option Char → Str → Nat → List Mtch
  | 0, _, _, _ => []
  | fuel + 1, prev, rest, pos =>
      match tryFrom ci re prev rest pos with
      | none => []
      | some (s, e, cp) =>
          let adv := if e = s then e + 1 else e
          let dn := adv - pos
          let prev2 := match (rest.take dn).getLast? with
            | some c => some c
            | none => prev
          (s, e, cp) :: matchAllAux ci re fuel prev2 (rest.drop dn) adv

def rxMatchAll (ci : Bool) (re : RE) (s : Str) : List Mtch :=
  matchAllAux ci re (s.length + 1) none s 0

/-- Splice replacement text over a list of (non-overlapping, ordered)
matches. -/
def spliceAll (s : Str) (f : Str → Caps → Nat → Nat → Str) : List Mtch → Nat → Str
  | [], cur => s.drop cur
  | (a, b, cp) :: ms, cur =>
      (s.drop cur).take (a - cur) ++ f s cp a b ++ spliceAll s f ms b

/-- JavaScript `string.replace(re, f)` with the `g` flag. -/
def rxReplaceAll (ci : Bool) (re : RE) (f : Str → Caps → Nat → Nat → Str) (s : Str) : Str :=
  spliceAll s f (rxMatchAll ci re s) 0

/-- JavaScript `string.replace(re, f)` without the `g` flag. -/
def rxReplaceFirst (ci : Bool) (re : RE) (f : Str → Caps → Nat → Nat → Str) (s : Str) : Str :=
  match rxMatch ci re s with
  | none => s
  | some (a, b, cp) => s.take a ++ f s cp a b ++ s.drop b

def splitPieces (s : Str) : List Mtch → Nat → List Str
  | [], cur => [s.drop cur]
  | (a, b, _) :: ms, cur => (s.drop cur).take (a - cur) :: splitPieces s ms b

/-- JavaScript `string.split(re)` for a separator regex without capture
groups that cannot match the empty string. -/
def rxSplit (ci : Bool) (re : RE) (s : Str) : List Str :=
  splitPieces s (rxMatchAll ci re s) 0

/-- JavaScript `string.split("\n")`. -/
def splitNL : Str → List Str
  | [] => [[]]
  | c :: rest =>
      match splitNL rest with
      | [] => [[]]
      | p :: ps => if c = '\n' then [] :: p :: ps else (c :: p) :: ps

/- ===== transcription of the regex literals of `parseFIR` ===== -/

def strLit (s : String) : RE := RE.lit s.toList

def cat (l : List RE) : RE := l.foldr RE.seq RE.eps

def altL : List RE → RE
  | [] => RE.eps
  | [r] => r
  | r :: rs => RE.alt r (altL rs)

/-- `[:\-]` -/
def clsColonDash : CharSet := ⟨false, [.ch ':', .ch '-']⟩
def clsWS : CharSet := ⟨false, [.ws]⟩
def clsDigit : CharSet := ⟨false, [.digit]⟩
/-- `[A-Za-z0-9 .,&'_-]` -/
def clsBig : CharSet :=
  ⟨false, [.range 'A' 'Z', .range 'a' 'z', .range '0' '9',
           .ch ' ', .ch '.', .ch ',', .ch '&', .ch '\'', .ch '_', .ch '-']⟩
/-- `[A-Za-z0-9\/\-]` -/
def clsFIRid : CharSet :=
  ⟨false, [.range 'A' 'Z', .range 'a' 'z', .range '0' '9', .ch '/', .ch '-']⟩
/-- `[\/\-\.]` -/
def clsDateSep : CharSet := ⟨false, [.ch '/', .ch '-', .ch '.']⟩
/-- `[:.]` -/
def clsColonDot : CharSet := ⟨false, [.ch ':', .ch '.']⟩
/-- `[A-Za-z .'_-]` (complainant name) -/
def clsNameU : CharSet :=
  ⟨false, [.range 'A' 'Z', .range 'a' 'z', .ch ' ', .ch '.', .ch '\'', .ch '_', .ch '-']⟩
/-- `[A-Za-z .@'_-]` (accused name) -/
def clsNameAt : CharSet :=
  ⟨false, [.range 'A' 'Z', .range 'a' 'z', .ch ' ', .ch '.', .ch '@', .ch '\'', .ch '_', .ch '-']⟩
/-- `[A-Za-z .'-]` (officer and witness names) -/
def clsNameP : CharSet :=
  ⟨false, [.range 'A' 'Z', .range 'a' 'z', .ch ' ', .ch '.', .ch '\'', .ch '-']⟩
/-- `[^:]` -/
def clsNotColon : CharSet := ⟨true, [.ch ':']⟩
/-- `[^.\n]` -/
def clsNotDotNL : CharSet := ⟨true, [.ch '.', .ch '\n']⟩
/-- `[ \t]` -/
def clsSpTab : CharSet := ⟨false, [.ch ' ', .ch '\t']⟩
/-- `.` (anything but a line terminator) -/
def clsDot : CharSet := ⟨true, [.ch '\n', .ch '\r', .ch (Char.ofNat 8232), .ch (Char.ofNat 8233)]⟩
def clsUpper : CharSet := ⟨false, [.range 'A' 'Z']⟩
/-- `[A-Za-z .,&'_-]` (strict location pass; no digits) -/
def clsLocS : CharSet :=
  ⟨false, [.range 'A' 'Z', .range 'a' 'z', .ch ' ', .ch '.', .ch ',', .ch '&', .ch '\'',
           .ch '_', .ch '-']⟩

def wsStar : RE := RE.star clsWS
def wsPlus : RE := RE.plus clsWS
/-- `(?=,|\n|$)` -/
def end3 : RE := RE.look (altL [strLit ",", strLit "\n", RE.eos])

/-- `/\bPolice\s*Station\s*[:\-]?\s*([A-Za-z0-9 .,&'_-]+?)(?=,|\n|$)/i` -/
def rePS : RE :=
  cat [RE.wb, strLit "Police", wsStar, strLit "Station", wsStar,
       RE.opt (RE.cls clsColonDash), wsStar, RE.grp 1 (RE.plusL clsBig), end3]

/-- `/\bFIR\s*(?:No\.?|Number)\s*[:\-]?\s*([A-Za-z0-9\/\-]+)/i` -/
def reFIRa : RE :=
  cat [RE.wb, strLit "FIR", wsStar,
       altL [cat [strLit "No", RE.opt (strLit ".")], strLit "Number"],
       wsStar, RE.opt (RE.cls clsColonDash), wsStar, RE.grp 1 (RE.plus clsFIRid)]

/-- `/\bFIR\s*registered\s*No\.?\s*([A-Za-z0-9\/\-]+)/i` -/
def reFIRb : RE :=
  cat [RE.wb, strLit "FIR", wsStar, strLit "registered", wsStar, strLit "No",
       RE.opt (strLit "."), wsStar, RE.grp 1 (RE.plus clsFIRid)]

/-- `/\bDate\s*[:\-]?\s*([0-9]{1,2}[\/\-\.][0-9]{1,2}[\/\-\.][0-9]{2,4})/i` -/
def reDate : RE :=
  cat [RE.wb, strLit "Date", wsStar, RE.opt (RE.cls clsColonDash), wsStar,
       RE.grp 1 (cat [RE.rep clsDigit 1 2, RE.cls clsDateSep, RE.rep clsDigit 1 2,
                      RE.cls clsDateSep, RE.rep clsDigit 2 4])]

/-- `[0-9]{1,2}[:.][0-9]{2}\s*(?:AM|PM|am|pm)?` -/
def timeBody : RE :=
  cat [RE.rep clsDigit 1 2, RE.cls clsColonDot, RE.rep clsDigit 2 2, wsStar,
       RE.opt (altL [strLit "AM", strLit "PM", strLit "am", strLit "pm"])]

/-- `/\bTime\s*[:\-]?\s*([0-9]{1,2}[:.][0-9]{2}\s*(?:AM|PM|am|pm)?)/i` -/
def reTime1 : RE :=
  cat [RE.wb, strLit "Time", wsStar, RE.opt (RE.cls clsColonDash), wsStar, RE.grp 1 timeBody]

/-- `/\b(?:at|around)\s*([0-9]{1,2}[:.][0-9]{2}\s*(?:AM|PM|am|pm)?)/i` -/
def reTime2 : RE :=
  cat [RE.wb, altL [strLit "at", strLit "around"], wsStar, RE.grp 1 timeBody]

/-- `/\b([0-9]{1,2}[:.][0-9]{2})\s*(?:hrs|Hrs|hours)?/i` -/
def reTime3 : RE :=
  cat [RE.wb, RE.grp 1 (cat [RE.rep clsDigit 1 2, RE.cls clsColonDot, RE.rep clsDigit 2 2]),
       wsStar, RE.opt (altL [strLit "hrs", strLit "Hrs", strLit "hours"])]

/-- `/1\.\s*Complainant\s*Details/i` -/
def reCmpStart : RE := cat [strLit "1.", wsStar, strLit "Complainant", wsStar, strLit "Details"]
/-- `/2\./i` -/
def reTwo : RE := strLit "2."
/-- `/2\.\s*Accused\s*Details/i` -/
def reAccStart : RE := cat [strLit "2.", wsStar, strLit "Accused", wsStar, strLit "Details"]
/-- `/3\./i` -/
def reThree : RE := strLit "3."
/-- `/5\.\s*Witness(?:es)?/i` -/
def reWitStart : RE := cat [strLit "5.", wsStar, strLit "Witness", RE.opt (strLit "es")]
/-- `/6\./i` -/
def reSix : RE := strLit "6."
/-- `/7\.\s*Investigating\s*Officer/i` -/
def reOffStart : RE := cat [strLit "7.", wsStar, strLit "Investigating", wsStar, strLit "Officer"]
/-- `/8\./i` -/
def reEight : RE := strLit "8."

/-- `(?:Age|Address|Designation|Contact|Mobile|Phone|Email|Police|Station|FIR|Date|Time)` -/
def nameLabels : RE :=
  altL [strLit "Age", strLit "Address", strLit "Designation", strLit "Contact",
        strLit "Mobile", strLit "Phone", strLit "Email", strLit "Police",
        strLit "Station", strLit "FIR", strLit "Date", strLit "Time"]

/-- `(?=\s+(?:Age|...|Time)\b|,|\n|$)` -/
def lookNameEnd : RE :=
  RE.look (altL [cat [wsPlus, nameLabels, RE.wb], strLit ",", strLit "\n", RE.eos])

/-- `/Name\s*:\s*([A-Za-z .'_-]+?)(?=\s+(?:Age|...|Time)\b|,|\n|$)/i` -/
def reNameCmp : RE :=
  cat [strLit "Name", wsStar, strLit ":", wsStar, RE.grp 1 (RE.plusL clsNameU), lookNameEnd]

/-- `/Name\s*:\s*([A-Za-z .@'_-]+?)(?=\s+(?:Age|...|Time)\b|,|\n|$)/i` -/
def reNameAcc : RE :=
  cat [strLit "Name", wsStar, strLit ":", wsStar, RE.grp 1 (RE.plusL clsNameAt), lookNameEnd]

/-- `/Name\s*:\s*([A-Za-z .'-]+?)(?=\s+(?:Age|...|Time)\b|,|\n|$)/i` -/
def reNameOff : RE :=
  cat [strLit "Name", wsStar, strLit ":", wsStar, RE.grp 1 (RE.plusL clsNameP), lookNameEnd]

/-- `/\bComplainant(?:\s*Name|\s*Details)?\s*:\s*([A-Za-z .'_-]+)/i` -/
def reCmpFlat : RE :=
  cat [RE.wb, strLit "Complainant",
       RE.opt (altL [cat [wsStar, strLit "Name"], cat [wsStar, strLit "Details"]]),
       wsStar, strLit ":", wsStar, RE.grp 1 (RE.plus clsNameU)]

/-- `/\bAccused(?:\s*Name|\s*Details)?\s*:\s*([A-Za-z .@'_-]+)/i` -/
def reAccFlat : RE :=
  cat [RE.wb, strLit "Accused",
       RE.opt (altL [cat [wsStar, strLit "Name"], cat [wsStar, strLit "Details"]]),
       wsStar, strLit ":", wsStar, RE.grp 1 (RE.plus clsNameAt)]

/-- `(?:Designation|Rank|Police\s*Station|Address|Age|Contact|Mobile|Phone|Email)` -/
def witLabels : RE :=
  altL [strLit "Designation", strLit "Rank", cat [strLit "Police", wsStar, strLit "Station"],
        strLit "Address", strLit "Age", strLit "Contact", strLit "Mobile",
        strLit "Phone", strLit "Email"]

/-- `(?=,|\.|\s+(?:Designation|...|Email)\b|$)` -/
def witEnd : RE :=
  RE.look (altL [strLit ",", strLit ".", cat [wsPlus, witLabels, RE.wb], RE.eos])

/-- `/^\s*(?:-|\d+\.)?\s*([A-Za-z .'-]+?)(?=,|\.|\s+(?:Designation|...)\b|$)/i` -/
def reWitLine : RE :=
  cat [RE.bos, wsStar, RE.opt (altL [strLit "-", cat [RE.plus clsDigit, strLit "."]]),
       wsStar, RE.grp 1 (RE.plusL clsNameP), witEnd]

/-- `/\bWitness(?:es)?[^:]*:\s*([^.\n]+)/i` -/
def reWitInline : RE :=
  cat [RE.wb, strLit "Witness", RE.opt (strLit "es"), RE.star clsNotColon, strLit ":",
       wsStar, RE.grp 1 (RE.plus clsNotDotNL)]

/-- `/,| and /i` (the split separator for the inline witness list) -/
def reCommaAnd : RE := altL [strLit ",", strLit " and "]

/-- `/^\s*([A-Za-z .'-]+?)(?=,|\.|\s+(?:Designation|...)\b|$)/` (no `i` flag) -/
def reChunk : RE := cat [RE.bos, wsStar, RE.grp 1 (RE.plusL clsNameP), witEnd]

/-- `/^\s*(?:Name\s*:\s*)?/i` -/
def reNameEcho : RE :=
  cat [RE.bos, wsStar, RE.opt (cat [strLit "Name", wsStar, strLit ":", wsStar])]

/-- `/^(?:SI|ASI|HC|PC|Ct|Inspector|Sub-Inspector)\.?\s+/i` -/
def reRank : RE :=
  cat [RE.bos,
       altL [strLit "SI", strLit "ASI", strLit "HC", strLit "PC", strLit "Ct",
             strLit "Inspector", strLit "Sub-Inspector"],
       RE.opt (strLit "."), wsPlus]

/-- `/\s+/` -/
def reWSplus : RE := RE.plus clsWS

/-- `/\bInvestigating\s*Officer\s*Name\s*:\s*([A-Za-z .'-]+?)(?=,|\.|\n|$)/i` -/
def reOff1 : RE :=
  cat [RE.wb, strLit "Investigating", wsStar, strLit "Officer", wsStar, strLit "Name",
       wsStar, strLit ":", wsStar, RE.grp 1 (RE.plusL clsNameP),
       RE.look (altL [strLit ",", strLit ".", strLit "\n", RE.eos])]

/-- `/\bIO\s*Name\s*:\s*([A-Za-z .'-]+?)(?=,|\.|\n|$)/i` -/
def reOff2 : RE :=
  cat [RE.wb, strLit "IO", wsStar, strLit "Name", wsStar, strLit ":", wsStar,
       RE.grp 1 (RE.plusL clsNameP),
       RE.look (altL [strLit ",", strLit ".", strLit "\n", RE.eos])]

/-- `/assigned\s+to\s*([A-Za-z .'-]+?)\s*,\s*Investigating\s*Officer/i` -/
def reOff3 : RE :=
  cat [strLit "assigned", wsPlus, strLit "to", wsStar, RE.grp 1 (RE.plusL clsNameP),
       wsStar, strLit ",", wsStar, strLit "Investigating", wsStar, strLit "Officer"]

/-- `/\bIPC\s*Section\s*(\d+)/gi` -/
def reIPCa : RE :=
  cat [RE.wb, strLit "IPC", wsStar, strLit "Section", wsStar, RE.grp 1 (RE.plus clsDigit)]

/-- `/\bSection\s*(\d+)\s*IPC\b/gi` -/
def reIPCb : RE :=
  cat [RE.wb, strLit "Section", wsStar, RE.grp 1 (RE.plus clsDigit), wsStar,
       strLit "IPC", RE.wb]

/-- `/\bLocation\s*[:\-]?\s*([A-Za-z0-9 .,&'_-]+?)(?=,|\n|$)/i` -/
def reLoc1 : RE :=
  cat [RE.wb, strLit "Location", wsStar, RE.opt (RE.cls clsColonDash), wsStar,
       RE.grp 1 (RE.plusL clsBig), end3]

/-- `/\bPolice\s*Station.*?\(\s*([A-Za-z0-9 .,&'_-]+?)\s*\)/i` -/
def reLoc2 : RE :=
  cat [RE.wb, strLit "Police", wsStar, strLit "Station", RE.starL clsDot, strLit "(",
       wsStar, RE.grp 1 (RE.plusL clsBig), wsStar, strLit ")"]

/-- `(?!Survey\s*No\b|FIR\b|First\b|Information\b|Report\b|Police\s*Station\b)` -/
def negBoiler : RE :=
  RE.lookN (altL [cat [strLit "Survey", wsStar, strLit "No", RE.wb],
                  cat [strLit "FIR", RE.wb], cat [strLit "First", RE.wb],
                  cat [strLit "Information", RE.wb], cat [strLit "Report", RE.wb],
                  cat [strLit "Police", wsStar, strLit "Station", RE.wb]])

/-- `/\b(?:at|in)\s+(?!...)([A-Za-z0-9 .,&'_-]+?)(?=,|\n|$)/i` -/
def reLoc4 : RE :=
  cat [RE.wb, altL [strLit "at", strLit "in"], wsPlus, negBoiler,
       RE.grp 1 (RE.plusL clsBig), end3]

/-- `/\b(FIR|First|Information|Report)\b/i` -/
def reReportW : RE :=
  cat [RE.wb, RE.grp 1 (altL [strLit "FIR", strLit "First", strLit "Information",
                              strLit "Report"]), RE.wb]

/-- `(?:Puram|Nagar|Colony|Road|Street|Layout|Block|Area|District|City)` -/
def locSuffixAlt : RE :=
  altL [strLit "Puram", strLit "Nagar", strLit "Colony", strLit "Road", strLit "Street",
        strLit "Layout", strLit "Block", strLit "Area", strLit "District", strLit "City"]

/-- `/\b(?:at|in)\s+(?!...)([A-Za-z .,&'_-]+?(?:Puram|...|City))(?=,|\n|$)/i` -/
def reLocStrict : RE :=
  cat [RE.wb, altL [strLit "at", strLit "in"], wsPlus, negBoiler,
       RE.grp 1 (cat [RE.plusL clsLocS, locSuffixAlt]), end3]

/-- `/\bSurvey\s*No\b.*$/i` -/
def reSurvey : RE :=
  cat [RE.wb, strLit "Survey", wsStar, strLit "No", RE.wb, RE.star clsDot, RE.eos]

/-- `/\b([A-Z])\s*\.\s*([A-Z])\s*\./g` (no `i` flag) -/
def reInitials : RE :=
  cat [RE.wb, RE.grp 1 (RE.cls clsUpper), wsStar, strLit ".", wsStar,
       RE.grp 2 (RE.cls clsUpper), wsStar, strLit "."]

/-- `/\bR\.?\s*S\.?\s*Puram\b/i` -/
def reRS : RE :=
  cat [RE.wb, strLit "R", RE.opt (strLit "."), wsStar, strLit "S", RE.opt (strLit "."),
       wsStar, strLit "Puram", RE.wb]

/-- `/\bBharathi\s*Nagar\b/i` -/
def reBN : RE := cat [RE.wb, strLit "Bharathi", wsStar, strLit "Nagar", RE.wb]

/-- `/\r\n?/g` -/
def reCRLF : RE := cat [strLit "\r", RE.opt (strLit "\n")]

/-- `/[ \t]+/g` -/
def reSpTabPlus : RE := RE.plus clsSpTab

/- ===== data model and translation of `parseFIR` ===== -/

structure TimelineEntry where
  time : Str
  event : Str
deriving DecidableEq, Repr

structure Entities where
  firNumber : Str
  policeStation : Str
  date : Str
  time : Str
  complainant : Str
  accused : Str
  witnesses : List Str
  sections : List Str
  location : Str
  investigatingOfficer : Str
deriving DecidableEq, Repr

structure CaseSummary where
  overview : Str
  keyPoints : List Str
  entities : Entities
  timeline : List TimelineEntry
deriving DecidableEq, Repr

def naStr : Str := "N/A".toList

/-- JavaScript `a || b` for strings (only `""` is falsy). -/
def jsOr (a b : Str) : Str := if a = [] then b else a

/-- JavaScript `a || ""` for an optional capture (`m?.[1] || ""`). -/
def optStr (o : Option Str) : Str := o.getD []

/-- The canonical empty summary returned for empty / whitespace-only input
(lines 20-36 of the source). -/
def emptySummary : CaseSummary :=
  { overview := "FIR summary not available.".toList
  , keyPoints := []
  , entities :=
    { firNumber := naStr, policeStation := naStr, date := naStr, time := naStr
    , complainant := naStr, accused := naStr, witnesses := [], sections := []
    , location := naStr, investigatingOfficer := naStr }
  , timeline := [] }

/-- The `pick` helper (lines 4-10): first regex whose group-1 capture is
non-empty wins; the capture is trimmed; otherwise the fallback.  Every call
site passes `/i` regexes and group 1. -/
def pick (res : List RE) (txt : Str) (fb : Str) : Str :=
  match res with
  | [] => fb
  | re :: rest =>
      match rxMatch true re txt with
      | some m =>
          match grp1At txt m with
          | some g => if g = [] then pick rest txt fb else jsTrim g
          | none => pick rest txt fb
      | none => pick rest txt fb

/-- `sliceBetween` (lines 72-78). -/
def sliceBetween (text : Str) (startRe endRe : RE) : Str :=
  match rxSearch true startRe text with
  | none => []
  | some s =>
      let rest := text.drop s
      match rxSearch true endRe rest with
      | none => rest
      | some e => rest.take e

/-- De-duplication keeping first occurrences, i.e. `Array.from(new Set(xs))`
and iterated `Set.add`. -/
def dedupFirstAux (seen : List Str) : List Str → List Str
  | [] => []
  | x :: xs =>
      if x ∈ seen then dedupFirstAux seen xs
      else x :: dedupFirstAux (x :: seen) xs

def dedupFirst (l : List Str) : List Str := dedupFirstAux [] l

/-- Index of the first occurrence of `x` (length of the list if absent). -/
def firstIdx (x : Str) : List Str → Nat
  | [] => 0
  | y :: ys => if y = x then 0 else firstIdx x ys + 1

/-- `text`: the raw input with CR / CRLF normalized to LF (line 40). -/
def textOf (raw : Str) : Str :=
  rxReplaceAll false reCRLF (fun _ _ _ _ => ['\n']) raw

/-- `flat`: horizontal whitespace runs collapsed, then trimmed (line 41). -/
def flatOf (raw : Str) : Str :=
  jsTrim (rxReplaceAll false reSpTabPlus (fun _ _ _ _ => [' ']) (textOf raw))

/-- `policeStation` (lines 44-50). -/
def policeStationOf (raw : Str) : Str := pick [rePS] (flatOf raw) naStr

/-- `firNumber` (lines 53-57). -/
def firNumberOf (raw : Str) : Str := pick [reFIRa, reFIRb] (flatOf raw) naStr

/-- `date` (lines 59-62). -/
def dateOf (raw : Str) : Str := pick [reDate] (flatOf raw) naStr

/-- `time` (lines 64-69). -/
def timeOf (raw : Str) : Str := pick [reTime1, reTime2, reTime3] (flatOf raw) naStr

/-- `complainantBlock` (line 81). -/
def complainantBlockOf (raw : Str) : Str := sliceBetween (textOf raw) reCmpStart reTwo

/-- `complainant` (lines 82-94). -/
def complainantOf (raw : Str) : Str :=
  jsTrim (jsOr (optStr ((rxMatch true reNameCmp (complainantBlockOf raw)).bind
                  (grp1At (complainantBlockOf raw))))
          (jsOr (pick [reCmpFlat] (flatOf raw) naStr) naStr))

/-- `accusedBlock` (line 97). -/
def accusedBlockOf (raw : Str) : Str := sliceBetween (textOf raw) reAccStart reThree

/-- `accused` (lines 98-110). -/
def accusedOf (raw : Str) : Str :=
  jsTrim (jsOr (optStr ((rxMatch true reNameAcc (accusedBlockOf raw)).bind
                  (grp1At (accusedBlockOf raw))))
          (jsOr (pick [reAccFlat] (flatOf raw) naStr) naStr))

/-- `witnessesBlock` (line 114). -/
def witnessBlockOf (raw : Str) : Str := sliceBetween (textOf raw) reWitStart reSix

/-- `cleanPerson` (lines 117-122): drop a leading `Name:` echo, drop one
leading police rank, collapse whitespace, trim. -/
def cleanPerson (s : Str) : Str :=
  jsTrim (rxReplaceAll false reWSplus (fun _ _ _ _ => [' '])
    (rxReplaceFirst true reRank (fun _ _ _ _ => [])
      (rxReplaceFirst true reNameEcho (fun _ _ _ _ => []) s)))

/-- The body of the per-line witness loop (lines 127-135):
`if (m && m[1]) { const name = cleanPerson(m[1]); if (name) push(name) }`. -/
def witnessFromLine (line : Str) : Option Str :=
  match rxMatch true reWitLine line with
  | some m =>
      match grp1At line m with
      | some g =>
          if g = [] then none
          else if cleanPerson g = [] then none else some (cleanPerson g)
      | none => none
  | none => none

def witnessesPrimaryOf (raw : Str) : List Str :=
  (splitNL (witnessBlockOf raw)).filterMap witnessFromLine

/-- The cleaned token of one comma/`and` chunk of the inline fallback
(lines 142-146): `cleanPerson((chunk || "").match(...)?.[1] || "")`. -/
def chunkNameOf (chunk : Str) : Str :=
  cleanPerson (optStr ((rxMatch false reChunk chunk).bind (grp1At chunk)))

/-- The body of the inline-fallback loop (lines 141-148): push if non-empty. -/
def witnessFromChunk (chunk : Str) : Option Str :=
  if chunkNameOf chunk = [] then none else some (chunkNameOf chunk)

/-- `flat.match(/\bWitness(?:es)?[^:]*:\s*([^.\n]+)/i)?.[1] || ""` (line 139). -/
def witnessInlineStrOf (raw : Str) : Str :=
  optStr ((rxMatch true reWitInline (flatOf raw)).bind (grp1At (flatOf raw)))

def witnessesInlineOf (raw : Str) : List Str :=
  if witnessInlineStrOf raw = [] then []
  else (rxSplit true reCommaAnd (witnessInlineStrOf raw)).filterMap witnessFromChunk

/-- The contents of the `witnesses` array just before de-duplication:
the primary per-line scan, or, when it produced nothing, the inline
fallback (lines 124-150). -/
def witnessCandidatesOf (raw : Str) : List Str :=
  if witnessesPrimaryOf raw = [] then witnessesInlineOf raw else witnessesPrimaryOf raw

/-- `witnesses` after `Array.from(new Set(...))` (line 153). -/
def witnessesOf (raw : Str) : List Str := dedupFirst (witnessCandidatesOf raw)

/-- `ioBlock` (line 160). -/
def officerBlockOf (raw : Str) : Str := sliceBetween (textOf raw) reOffStart reEight

/-- `ioInline` (lines 163-172): `pick` with fallback `""`. -/
def officerInlineOf (raw : Str) : Str := pick [reOff1, reOff2, reOff3] (flatOf raw) []

/-- `investigatingOfficer` (lines 174-181). -/
def investigatingOfficerOf (raw : Str) : Str :=
  jsTrim (jsOr (optStr ((rxMatch true reNameOff (officerBlockOf raw)).bind
                  (grp1At (officerBlockOf raw))))
          (jsOr (officerInlineOf raw) naStr))

/-- All matches of `/\bIPC\s*Section\s*(\d+)/gi` over `text`, with their start
positions, normalized to `IPC <number>` (line 186). -/
def sectionMatchesA (raw : Str) : List (Nat × Str) :=
  (rxMatchAll true reIPCa (textOf raw)).filterMap fun m =>
    (grp1At (textOf raw) m).map fun g => (m.1, "IPC ".toList ++ g)

/-- All matches of `/\bSection\s*(\d+)\s*IPC\b/gi` over `text` (line 187). -/
def sectionMatchesB (raw : Str) : List (Nat × Str) :=
  (rxMatchAll true reIPCb (textOf raw)).filterMap fun m =>
    (grp1At (textOf raw) m).map fun g => (m.1, "IPC ".toList ++ g)

/-- The normalized citations in the order in which they are inserted into the
`Set` (the first scan in full, then the second). -/
def sectionCandidatesPosOf (raw : Str) : List (Nat × Str) :=
  sectionMatchesA raw ++ sectionMatchesB raw

def sectionCandidatesOf (raw : Str) : List Str :=
  (sectionCandidatesPosOf raw).map fun p => p.2

/-- `sections = Array.from(sectionsSet)` (lines 185-188). -/
def sectionsOf (raw : Str) : List Str := dedupFirst (sectionCandidatesOf raw)

def minNat? (l : List Nat) : Option Nat :=
  l.foldl (fun acc n =>
    match acc with
    | none => some n
    | some m => some (min m n)) none

/-- The position in `text` of the first citation match that normalizes to a
given entry (used to state the first-occurrence-order property). -/
def sectionFirstPosOf (raw : Str) (s : Str) : Option Nat :=
  minNat? (((sectionCandidatesPosOf raw).filter fun p => p.2 = s).map fun p => p.1)

/-- First `location` pass: the four-regex `pick` with fallback `""`
(lines 192-210), including the trailing `|| ""`. -/
def locationPickOf (raw : Str) : Str :=
  jsOr (pick [reLoc1, reLoc2, rePS, reLoc4] (flatOf raw) []) []

/-- Second, stricter pass (lines 213-218). -/
def locationPass2Of (raw : Str) : Str :=
  if locationPickOf raw = [] ∨ rxTest true reReportW (locationPickOf raw) then
    jsTrim (optStr ((rxMatch true reLocStrict (flatOf raw)).bind (grp1At (flatOf raw))))
  else locationPickOf raw

/-- Cleanup and normalization (lines 221-225): strip a trailing `Survey No`
reference, collapse whitespace, compact spaced initials, trim. -/
def locationCleanOf (raw : Str) : Str :=
  jsTrim (rxReplaceAll false reInitials
    (fun s cp _ _ => optStr (grpStr s cp 1) ++ ['.'] ++ optStr (grpStr s cp 2) ++ ['.'])
    (rxReplaceAll false reWSplus (fun _ _ _ _ => [' '])
      (rxReplaceFirst true reSurvey (fun _ _ _ _ => []) (locationPass2Of raw))))

/-- Final fallbacks (lines 228-232): `(bn || rs || policeStation || "N/A").trim()`. -/
def locationOf (raw : Str) : Str :=
  if locationCleanOf raw = [] then
    jsTrim (jsOr (optStr ((rxMatch true reBN (flatOf raw)).map (grp0At (flatOf raw))))
            (jsOr (optStr ((rxMatch true reRS (flatOf raw)).map (grp0At (flatOf raw))))
             (jsOr (policeStationOf raw) naStr)))
  else locationCleanOf raw

/-- JavaScript `Array.prototype.join(sep)`. -/
def joinSep (sep : Str) : List Str → Str
  | [] => []
  | [x] => x
  | x :: xs => x ++ sep ++ joinSep sep xs

def joinSpace (l : List Str) : Str := joinSep [' '] l

def joinCommaSpace (l : List Str) : Str := joinSep (", ".toList) l

/-- `overview` (lines 236-242) as a function of the extracted fields. -/
def overviewFrom (ps loc fir date time : Str) : Str :=
  let parts : List Str :=
    ["FIR registered".toList]
    ++ (if ps ≠ [] ∧ ps ≠ naStr then ["at ".toList ++ ps] else [])
    ++ (if loc ≠ [] ∧ loc ≠ naStr ∧ loc ≠ ps then ["(".toList ++ loc ++ ")".toList] else [])
    ++ (if fir ≠ [] ∧ fir ≠ naStr then ["FIR No: ".toList ++ fir] else [])
    ++ (if date ≠ [] ∧ date ≠ naStr then ["Date: ".toList ++ date] else [])
    ++ (if time ≠ [] ∧ time ≠ naStr then ["Time: ".toList ++ time] else [])
  jsTrim (rxReplaceAll false reWSplus (fun _ _ _ _ => [' ']) (joinSpace parts))

def overviewOf (raw : Str) : Str :=
  overviewFrom (policeStationOf raw) (locationOf raw) (firNumberOf raw) (dateOf raw)
    (timeOf raw)

/-- `keyPoints` (lines 244-250) as a function of the extracted fields. -/
def keyPointsFrom (compl acc loc : Str) (sections : List Str) (officer : Str) : List Str :=
  [ "Complainant – ".toList ++ jsOr compl naStr
  , "Accused – ".toList ++ jsOr acc naStr
  , "Location – ".toList ++ jsOr loc naStr
  , "Sections – ".toList ++ (if sections = [] then naStr else joinCommaSpace sections)
  , "Investigating Officer – ".toList ++ jsOr officer naStr ]

def keyPointsOf (raw : Str) : List Str :=
  keyPointsFrom (complainantOf raw) (accusedOf raw) (locationOf raw) (sectionsOf raw)
    (investigatingOfficerOf raw)

/-- `timeline` (lines 252-258) as a function of the extracted date/time. -/
def timelineFrom (date time : Str) : List TimelineEntry :=
  if date ≠ naStr ∨ time ≠ naStr then
    [ { time := joinSpace (([if date ≠ naStr then date else [],
                             if time ≠ naStr then time else []]).filter fun s => s ≠ [])
      , event := "FIR registered".toList } ]
  else []

def timelineOf (raw : Str) : List TimelineEntry := timelineFrom (dateOf raw) (timeOf raw)

/-- The return statement of `parseFIR` (lines 260-276): every scalar entity
field is coalesced with `|| "N/A"`. -/
def assembleOf (raw : Str) : CaseSummary :=
  { overview := overviewOf raw
  , keyPoints := keyPointsOf raw
  , entities :=
    { firNumber := jsOr (firNumberOf raw) naStr
    , policeStation := jsOr (policeStationOf raw) naStr
    , date := jsOr (dateOf raw) naStr
    , time := jsOr (timeOf raw) naStr
    , complainant := jsOr (complainantOf raw) naStr
    , accused := jsOr (accusedOf raw) naStr
    , witnesses := witnessesOf raw
    , sections := sectionsOf raw
    , location := jsOr (locationOf raw) naStr
    , investigatingOfficer := jsOr (investigatingOfficerOf raw) naStr }
  , timeline := timelineOf raw }

/-- `parseFIR` (lines 19-277): the extraction engine.  `!raw || !raw.trim()`
is equivalent to `raw.trim() === ""`. -/
def parseFIR (raw : Str) : CaseSummary :=
  if jsTrim raw = [] then emptySummary else assembleOf raw

/- ===== supporting lemmas ===== -/

theorem jsOr_na_ne_nil (a : Str) : jsOr a naStr ≠ [] := by
  unfold jsOr
  split
  · decide
  · assumption

theorem jsOr_na_cases {a : Str} (h : jsOr a naStr = naStr) : a = [] ∨ a = naStr := by
  unfold jsOr at h
  split at h
  · left; assumption
  · right; exact h

theorem jsTrim_eq_nil (l : Str) (h : ∀ c ∈ l, isJsWS c = true) : jsTrim l = [] := by
  unfold jsTrim
  have h1 : l.dropWhile (fun c => isJsWS c) = [] := by
    rw [List.dropWhile_eq_nil_iff]
    exact h
  rw [h1]
  simp

theorem mem_dedupFirstAux {x : Str} {l seen : List Str}
    (h : x ∈ dedupFirstAux seen l) : x ∈ l ∧ x ∉ seen := by
  induction l generalizing seen with
  | nil => simp [dedupFirstAux] at h
  | cons y ys ih =>
      unfold dedupFirstAux at h
      split at h
      next hin =>
        rcases ih h with ⟨h1, h2⟩
        exact ⟨List.mem_cons_of_mem _ h1, h2⟩
      next hnin =>
        rcases List.mem_cons.mp h with h' | h'
        · subst h'
          exact ⟨List.mem_cons_self _ _, hnin⟩
        · rcases ih h' with ⟨h1, h2⟩
          exact ⟨List.mem_cons_of_mem _ h1, fun hs => h2 (List.mem_cons_of_mem _ hs)⟩

theorem mem_dedupFirstAux_of {x : Str} {l seen : List Str}
    (hl : x ∈ l) (hs : x ∉ seen) : x ∈ dedupFirstAux seen l := by
  induction l generalizing seen with
  | nil => simp at hl
  | cons y ys ih =>
      unfold dedupFirstAux
      rcases List.mem_cons.mp hl with h' | h'
      · subst h'
        split
        next hin => exact absurd hin hs
        next => exact List.mem_cons_self _ _
      · split
        next => exact ih h' hs
        next hnin =>
          by_cases hxy : x = y
          · subst hxy
            exact List.mem_cons_self _ _
          · refine List.mem_cons_of_mem _ (ih h' ?_)
            intro hc
            rcases List.mem_cons.mp hc with e | e
            · exact hxy e
            · exact hs e

theorem mem_dedupFirst_iff {x : Str} {l : List Str} : x ∈ dedupFirst l ↔ x ∈ l := by
  constructor
  · intro h
    exact (mem_dedupFirstAux h).1
  · intro h
    exact mem_dedupFirstAux_of h (by simp)

theorem nodup_dedupFirstAux (l : List Str) : ∀ seen, (dedupFirstAux seen l).Nodup := by
  induction l with
  | nil => intro seen; simp [dedupFirstAux]
  | cons y ys ih =>
      intro seen
      unfold dedupFirstAux
      split
      · exact ih seen
      · refine List.nodup_cons.mpr ⟨?_, ih (y :: seen)⟩
        intro hmem
        exact (mem_dedupFirstAux hmem).2 (List.mem_cons_self _ _)

theorem firstIdx_cons_self (x : Str) (ys : List Str) : firstIdx x (x :: ys) = 0 := by
  simp [firstIdx]

theorem firstIdx_cons_ne {x y : Str} (ys : List Str) (h : y ≠ x) :
    firstIdx x (y :: ys) = firstIdx x ys + 1 := by
  simp [firstIdx, h]

theorem pairwise_dedupFirstAux (l : List Str) :
    ∀ seen, (dedupFirstAux seen l).Pairwise
      (fun a b => firstIdx a l < firstIdx b l) := by
  induction l with
  | nil => intro seen; simp [dedupFirstAux]
  | cons y ys ih =>
      intro seen
      unfold dedupFirstAux
      split
      next hin =>
        refine (ih seen).imp_of_mem ?_
        intro a b ha hb hlt
        have ha' := mem_dedupFirstAux ha
        have hb' := mem_dedupFirstAux hb
        have hay : y ≠ a := fun e => ha'.2 (e ▸ hin)
        have hby : y ≠ b := fun e => hb'.2 (e ▸ hin)
        rw [firstIdx_cons_ne ys hay, firstIdx_cons_ne ys hby]
        omega
      next hnin =>
        refine List.Pairwise.cons ?_ ?_
        · intro b hb
          have hb' := mem_dedupFirstAux hb
          have hby : y ≠ b := by
            intro e
            exact hb'.2 (e ▸ List.mem_cons_self _ _)
          rw [firstIdx_cons_self, firstIdx_cons_ne ys hby]
          omega
        · refine (ih (y :: seen)).imp_of_mem ?_
          intro a b ha hb hlt
          have ha' := mem_dedupFirstAux ha
          have hb' := mem_dedupFirstAux hb
          have hay : y ≠ a := fun e => ha'.2 (e ▸ List.mem_cons_self _ _)
          have hby : y ≠ b := fun e => hb'.2 (e ▸ List.mem_cons_self _ _)
          rw [firstIdx_cons_ne ys hay, firstIdx_cons_ne ys hby]
          omega

theorem witnessFromLine_shape {line w : Str} (h : witnessFromLine line = some w) :
    w ≠ [] ∧ ∃ s, w = cleanPerson s := by
  unfold witnessFromLine at h
  split at h
  next m _ =>
    split at h
    next g _ =>
      split at h
      · exact absurd h (by simp)
      · split at h
        · exact absurd h (by simp)
        next hne =>
          have hw : cleanPerson g = w := by
            injection h
          exact ⟨hw ▸ hne, g, hw.symm⟩
    next => exact absurd h (by simp)
  next => exact absurd h (by simp)

theorem witnessFromChunk_shape {chunk w : Str} (h : witnessFromChunk chunk = some w) :
    w ≠ [] ∧ ∃ s, w = cleanPerson s := by
  unfold witnessFromChunk at h
  split at h
  · exact absurd h (by simp)
  next hne =>
    have hw : chunkNameOf chunk = w := by
      injection h
    exact ⟨hw ▸ hne, _, hw.symm⟩

/-- On inputs that pass the emptiness guard, `parseFIR` is the assembled
record. -/
theorem parseFIR_of_guard {raw : Str} (hg : jsTrim raw ≠ []) :
    parseFIR raw = assembleOf raw := by
  unfold parseFIR
  rw [if_neg hg]

theorem overviewFrom_na {ps loc fir d t : Str}
    (hps : ps = [] ∨ ps = naStr) (hloc : loc = [] ∨ loc = naStr)
    (hfir : fir = [] ∨ fir = naStr) (hd : d = [] ∨ d = naStr)
    (ht : t = [] ∨ t = naStr) :
    overviewFrom ps loc fir d t = "FIR registered".toList := by
  rcases hps with h1 | h1 <;> rcases hloc with h2 | h2 <;> rcases hfir with h3 | h3 <;>
    rcases hd with h4 | h4 <;> rcases ht with h5 | h5 <;> subst_vars <;> decide

theorem keyPointsFrom_na {c a l o : Str}
    (hc : jsOr c naStr = naStr) (ha : jsOr a naStr = naStr)
    (hl : jsOr l naStr = naStr) (ho : jsOr o naStr = naStr) :
    keyPointsFrom c a l [] o =
      [ "Complainant – N/A".toList, "Accused – N/A".toList, "Location – N/A".toList
      , "Sections – N/A".toList, "Investigating Officer – N/A".toList ] := by
  unfold keyPointsFrom
  rw [hc, ha, hl, ho]
  rfl

/-- The timeline value claimed by the specification: the non-sentinel values
among date/time joined by a single space. -/
def claimTimeJoin (d t : Str) : Str :=
  if d ≠ naStr then (if t ≠ naStr then d ++ [' '] ++ t else d) else t

theorem timelineFrom_spec (d t : Str) :
    (timelineFrom d t = [] ↔ (d = naStr ∧ t = naStr))
  ∧ (timelineFrom d t).length ≤ 1
  ∧ ∀ e ∈ timelineFrom d t,
      e.event = "FIR registered".toList
      ∧ (d ≠ [] → t ≠ [] → e.time = claimTimeJoin d t) := by
  by_cases hd : d = naStr <;> by_cases ht : t = naStr
  · simp [timelineFrom, hd, ht]
  · subst hd
    refine ⟨by simp [timelineFrom, ht], by simp [timelineFrom, ht], ?_⟩
    intro e he
    rw [timelineFrom, if_pos (Or.inr ht)] at he
    simp [ht] at he
    subst he
    refine ⟨rfl, ?_⟩
    intro _ htne
    simp [claimTimeJoin, ht, htne, joinSpace, joinSep]
  · subst ht
    refine ⟨by simp [timelineFrom, hd], by simp [timelineFrom, hd], ?_⟩
    intro e he
    rw [timelineFrom, if_pos (Or.inl hd)] at he
    simp [hd] at he
    subst he
    refine ⟨rfl, ?_⟩
    intro hdne _
    simp [claimTimeJoin, hd, hdne, joinSpace, joinSep]
  · refine ⟨by simp [timelineFrom, hd, ht], by simp [timelineFrom, hd, ht], ?_⟩
    intro e he
    rw [timelineFrom, if_pos (Or.inl hd)] at he
    simp [hd, ht] at he
    subst he
    refine ⟨rfl, ?_⟩
    intro hdne htne
    simp [claimTimeJoin, hd, ht, hdne, htne, joinSpace, joinSep]

/- ===== concrete inputs used by the claims ===== -/

def tSecOrder : Str := "Section 100 IPC and IPC Section 200".toList
def tTimeOnly : Str := "Time: 5:06".toList
def tRankCmp : Str := "1. Complainant Details\nName: SI Ravi\n2. End".toList
def tWitClean : Str := "5. Witnesses\n- HC Mohan Lal\n6. End".toList
def tWitBlock : Str :=
  "5. Witnesses\n1. SI Amit Singh, Designation: Security\n2. Priya Rao\n6. Sections".toList
def rajeshBlock : Str :=
  "1. Complainant Details\nName: Rajesh Kumar, Age: 34\n2. Accused Details\nName: Unknown\n".toList
def decoyBlock : Str := "1. Complainant Details\nName: Alice\n2. A\n".toList
def cit1 : Str := "IPC Section 379".toList
def cit2 : Str := "Section 379 IPC".toList
def tCitEmbed : Str := "XIPC Section 379 IPCX".toList
def tCitBoth : Str := "IPC Section 379 and Section 379 IPC".toList
def tNoMatch : Str := "zzz".toList

/- ===== the claims ===== -/

/-- Claim C1: `parseFIR` is total (it is a Lean function into `CaseSummary`,
so it always returns a fully-populated record with all list fields present),
and every scalar entity field of its result is a non-empty string — either an
extracted value or the `"N/A"` sentinel, never absent or empty. -/
theorem claim_C1_total_defaulted (raw : Str) :
    (parseFIR raw).entities.firNumber ≠ []
  ∧ (parseFIR raw).entities.policeStation ≠ []
  ∧ (parseFIR raw).entities.date ≠ []
  ∧ (parseFIR raw).entities.time ≠ []
  ∧ (parseFIR raw).entities.complainant ≠ []
  ∧ (parseFIR raw).entities.accused ≠ []
  ∧ (parseFIR raw).entities.location ≠ []
  ∧ (parseFIR raw).entities.investigatingOfficer ≠ [] := by
  unfold parseFIR
  split
  · refine ⟨?_, ?_, ?_, ?_, ?_, ?_, ?_, ?_⟩ <;> decide
  · simp only [assembleOf]
    exact ⟨jsOr_na_ne_nil _, jsOr_na_ne_nil _, jsOr_na_ne_nil _, jsOr_na_ne_nil _,
           jsOr_na_ne_nil _, jsOr_na_ne_nil _, jsOr_na_ne_nil _, jsOr_na_ne_nil _⟩

/-- Claim C2: for empty or whitespace-only input, `parseFIR` returns the
canonical empty summary (overview `"FIR summary not available."`, empty key
points, all entity scalars `"N/A"`, empty witnesses/sections, empty timeline)
without running any extractor. -/
theorem claim_C2_empty_input (raw : Str) (h : ∀ c ∈ raw, isJsWS c = true) :
    parseFIR raw = emptySummary := by
  unfold parseFIR
  rw [if_pos (jsTrim_eq_nil raw h)]

theorem claim_C2_empty_input_witness : parseFIR " \n\t ".toList = emptySummary :=
  claim_C2_empty_input _ (by decide)

/-- Claim C3: `parseFIR` is a pure deterministic function of its input; two
invocations on the same string yield structurally identical summaries.  In
this shallow embedding the engine is a Lean function, which reflects that the
source reads no state besides its argument. -/
theorem claim_C3_deterministic (raw : Str) : parseFIR raw = parseFIR raw := rfl

/-- Claim C4 counterexample: the claim states that the order of `sections`
matches the first-occurrence order of the corresponding matches in the source
text.  For the input `"Section 100 IPC and IPC Section 200"` the engine
returns `["IPC 200", "IPC 100"]`, though the match normalized to `"IPC 100"`
starts at position 0 and the one normalized to `"IPC 200"` at position 20:
the two citation shapes are scanned in two separate passes, so cross-shape
text order is not preserved. -/
theorem claim_C4_counterexample :
    (parseFIR tSecOrder).entities.sections = ["IPC 200".toList, "IPC 100".toList]
  ∧ sectionFirstPosOf tSecOrder ("IPC 100".toList) = some 0
  ∧ sectionFirstPosOf tSecOrder ("IPC 200".toList) = some 20 := by
  decide

/-- Claim C4 (amended): for every non-degenerate input, `witnesses` and
`sections` contain no duplicates; each list enumerates exactly the candidate
values produced by its scan, ordered by first occurrence in that scan
(witnesses: line order of the witness block, which is source order;
sections: all `IPC Section n` matches in text order, then all
`Section n IPC` matches in text order). -/
theorem claim_C4_amended (raw : Str) (hg : jsTrim raw ≠ []) :
    (parseFIR raw).entities.witnesses.Nodup
  ∧ (parseFIR raw).entities.sections.Nodup
  ∧ (parseFIR raw).entities.witnesses.Pairwise
      (fun a b => firstIdx a (witnessCandidatesOf raw) < firstIdx b (witnessCandidatesOf raw))
  ∧ (parseFIR raw).entities.sections.Pairwise
      (fun a b => firstIdx a (sectionCandidatesOf raw) < firstIdx b (sectionCandidatesOf raw))
  ∧ (∀ x, x ∈ (parseFIR raw).entities.witnesses ↔ x ∈ witnessCandidatesOf raw)
  ∧ (∀ x, x ∈ (parseFIR raw).entities.sections ↔ x ∈ sectionCandidatesOf raw) := by
  rw [parseFIR_of_guard hg]
  simp only [assembleOf]
  exact ⟨nodup_dedupFirstAux _ [], nodup_dedupFirstAux _ [],
         pairwise_dedupFirstAux _ [], pairwise_dedupFirstAux _ [],
         fun _ => mem_dedupFirst_iff, fun _ => mem_dedupFirst_iff⟩

theorem claim_C4_amended_witness :
    (parseFIR tSecOrder).entities.witnesses.Nodup
  ∧ (parseFIR tSecOrder).entities.sections.Nodup
  ∧ (parseFIR tSecOrder).entities.witnesses.Pairwise
      (fun a b =>
        firstIdx a (witnessCandidatesOf tSecOrder) < firstIdx b (witnessCandidatesOf tSecOrder))
  ∧ (parseFIR tSecOrder).entities.sections.Pairwise
      (fun a b =>
        firstIdx a (sectionCandidatesOf tSecOrder) < firstIdx b (sectionCandidatesOf tSecOrder))
  ∧ (∀ x, x ∈ (parseFIR tSecOrder).entities.witnesses ↔ x ∈ witnessCandidatesOf tSecOrder)
  ∧ (∀ x, x ∈ (parseFIR tSecOrder).entities.sections ↔ x ∈ sectionCandidatesOf tSecOrder) :=
  claim_C4_amended tSecOrder (by decide)

/-- Claim C5: the timeline has an entry only if the date or the time
extractor produced a non-sentinel value; it is empty exactly when both are
`"N/A"`; it never has more than one entry; and the entry carries the fixed
report-registration label with the non-sentinel values among date/time joined
by a space. -/
theorem claim_C5_timeline (raw : Str) (hg : jsTrim raw ≠ []) :
    ((parseFIR raw).timeline = [] ↔ (dateOf raw = naStr ∧ timeOf raw = naStr))
  ∧ (parseFIR raw).timeline.length ≤ 1
  ∧ ∀ e ∈ (parseFIR raw).timeline,
      e.event = "FIR registered".toList
      ∧ (dateOf raw ≠ [] → timeOf raw ≠ [] →
          e.time = claimTimeJoin (dateOf raw) (timeOf raw)) := by
  rw [parseFIR_of_guard hg]
  simp only [assembleOf]
  exact timelineFrom_spec (dateOf raw) (timeOf raw)

theorem claim_C5_timeline_witness :
    ((parseFIR tTimeOnly).timeline = [] ↔ (dateOf tTimeOnly = naStr ∧ timeOf tTimeOnly = naStr))
  ∧ (parseFIR tTimeOnly).timeline.length ≤ 1
  ∧ ∀ e ∈ (parseFIR tTimeOnly).timeline,
      e.event = "FIR registered".toList
      ∧ (dateOf tTimeOnly ≠ [] → timeOf tTimeOnly ≠ [] →
          e.time = claimTimeJoin (dateOf tTimeOnly) (timeOf tTimeOnly)) :=
  claim_C5_timeline tTimeOnly (by decide)

/-- Claim C6 counterexample: the claim states that complainant, accused and
investigating-officer captures have a leading police rank stripped.  For the
input `"1. Complainant Details\nName: SI Ravi\n2. End"` the engine returns
complainant `"SI Ravi"`, on which the rank-stripping cleanup (`cleanPerson`)
is not a fixed point: only witness captures are cleaned. -/
theorem claim_C6_counterexample :
    (parseFIR tRankCmp).entities.complainant = "SI Ravi".toList
  ∧ cleanPerson ((parseFIR tRankCmp).entities.complainant)
      ≠ (parseFIR tRankCmp).entities.complainant := by
  decide

/-- Claim C6 (amended): every entry of the returned witness list is the image
of the `cleanPerson` cleanup (leading `Name:` echo stripped, one leading
police rank token stripped, internal whitespace collapsed, trimmed) and is
non-empty; the complainant/accused/officer captures are only trimmed. -/
theorem claim_C6_amended (raw w : Str) (hw : w ∈ (parseFIR raw).entities.witnesses) :
    w ≠ [] ∧ ∃ s, w = cleanPerson s := by
  unfold parseFIR at hw
  split at hw
  · simp [emptySummary] at hw
  · simp only [assembleOf] at hw
    have hc : w ∈ witnessCandidatesOf raw := mem_dedupFirst_iff.mp hw
    unfold witnessCandidatesOf at hc
    split at hc
    · unfold witnessesInlineOf at hc
      split at hc
      · simp at hc
      · rcases List.mem_filterMap.mp hc with ⟨c, _, hce⟩
        exact witnessFromChunk_shape hce
    · unfold witnessesPrimaryOf at hc
      rcases List.mem_filterMap.mp hc with ⟨line, _, hle⟩
      exact witnessFromLine_shape hle

theorem claim_C6_amended_witness :
    "Mohan Lal".toList ≠ [] ∧ ∃ s, "Mohan Lal".toList = cleanPerson s :=
  claim_C6_amended tWitClean ("Mohan Lal".toList) (by decide)

/-- Claim C7: for the witness block of the claim the engine returns
`["Witnesses", "Amit Singh", "Priya Rao"]`, not `["Amit Singh", "Priya Rao"]`
as the claim states: the section heading line `"5. Witnesses"` itself matches
the per-line pattern (numbered prefix `5.` followed by a name-shaped token),
so the heading word is pushed as a witness. -/
theorem claim_C7_divergence :
    (parseFIR tWitBlock).entities.witnesses
      = ["Witnesses".toList, "Amit Singh".toList, "Priya Rao".toList]
  ∧ (parseFIR tWitBlock).entities.witnesses
      ≠ ["Amit Singh".toList, "Priya Rao".toList] := by
  decide

/-- Claim C8 counterexample: the claim quantifies over every input containing
the Rajesh/Unknown block.  Prepending a decoy complainant block produces an
input that still contains the block verbatim, yet the engine slices the first
`1. Complainant Details` heading and returns `"Alice"`. -/
theorem claim_C8_counterexample :
    List.IsInfix rajeshBlock (decoyBlock ++ rajeshBlock)
  ∧ (parseFIR (decoyBlock ++ rajeshBlock)).entities.complainant = "Alice".toList
  ∧ "Alice".toList ≠ "Rajesh Kumar".toList := by
  refine ⟨⟨decoyBlock, [], by simp⟩, by decide, by decide⟩

/-- Claim C8 (amended): for the input consisting of the block
`"1. Complainant Details\nName: Rajesh Kumar, Age: 34\n2. Accused Details\n`
`Name: Unknown\n"` itself (its headings being the first ones of the text),
the engine extracts complainant `"Rajesh Kumar"` and accused `"Unknown"`. -/
theorem claim_C8_amended :
    (parseFIR rajeshBlock).entities.complainant = "Rajesh Kumar".toList
  ∧ (parseFIR rajeshBlock).entities.accused = "Unknown".toList := by
  decide

/-- Claim C9 counterexample: the claim quantifies over every input containing
both citation strings.  Embedding them so that the word boundaries of the
citation patterns fail (`"XIPC Section 379 IPCX"` contains both
`"IPC Section 379"` and `"Section 379 IPC"` as substrings) yields an empty
`sections` list rather than exactly one `"IPC 379"` entry. -/
theorem claim_C9_counterexample :
    tCitEmbed = "X".toList ++ cit1 ++ " IPCX".toList
  ∧ tCitEmbed = "XIPC ".toList ++ cit2 ++ "X".toList
  ∧ (parseFIR tCitEmbed).entities.sections = [] := by
  refine ⟨by decide, by decide, by decide⟩

/-- Claim C9 (amended): for text carrying both citation shapes as standalone
tokens — `"IPC Section 379 and Section 379 IPC"` — both matches normalize to
the canonical form and de-duplicate to exactly one `"IPC 379"` entry. -/
theorem claim_C9_amended :
    (parseFIR tCitBoth).entities.sections = ["IPC 379".toList] := by
  decide

/-- Claim C10: for a non-empty, non-whitespace-only input on which every
extractor failed (all scalar fields `"N/A"`, both collections empty), the
overview is exactly `"FIR registered"` — not the empty-input sentinel — and
the key points are the fixed five entries, each ending in the sentinel. -/
theorem claim_C10_no_match_defaults (raw : Str) (hg : jsTrim raw ≠ [])
    (h1 : (parseFIR raw).entities.firNumber = naStr)
    (h2 : (parseFIR raw).entities.policeStation = naStr)
    (h3 : (parseFIR raw).entities.date = naStr)
    (h4 : (parseFIR raw).entities.time = naStr)
    (h5 : (parseFIR raw).entities.complainant = naStr)
    (h6 : (parseFIR raw).entities.accused = naStr)
    (h7 : (parseFIR raw).entities.location = naStr)
    (h8 : (parseFIR raw).entities.investigatingOfficer = naStr)
    (h9 : (parseFIR raw).entities.witnesses = [])
    (h10 : (parseFIR raw).entities.sections = []) :
    (parseFIR raw).overview = "FIR registered".toList
  ∧ (parseFIR raw).keyPoints =
      [ "Complainant – N/A".toList, "Accused – N/A".toList, "Location – N/A".toList
      , "Sections – N/A".toList, "Investigating Officer – N/A".toList ] := by
  rw [parseFIR_of_guard hg] at h1 h2 h3 h4 h5 h6 h7 h8 h9 h10 ⊢
  simp only [assembleOf] at h1 h2 h3 h4 h5 h6 h7 h8 h9 h10 ⊢
  constructor
  · unfold overviewOf
    exact overviewFrom_na (jsOr_na_cases h2) (jsOr_na_cases h7) (jsOr_na_cases h1)
      (jsOr_na_cases h3) (jsOr_na_cases h4)
  · unfold keyPointsOf
    rw [h10]
    exact keyPointsFrom_na h5 h6 h7 h8

theorem claim_C10_no_match_defaults_witness :
    (parseFIR tNoMatch).overview = "FIR registered".toList
  ∧ (parseFIR tNoMatch).keyPoints =
      [ "Complainant – N/A".toList, "Accused – N/A".toList, "Location – N/A".toList
      , "Sections – N/A".toList, "Investigating Officer – N/A".toList ] :=
  claim_C10_no_match_defaults tNoMatch (by decide) (by decide) (by decide) (by decide)
    (by decide) (by decide) (by decide) (by decide) (by decide) (by decide) (by decide)

end LegalSum
